import Mathlib

/-!
Verification of the Sublime Text "Repo" plugin (`src/repo.py`) against its
specification.  The plugin shells out to the external `repo` tool; the
interesting logic is the repo-root locator with its TTL cache, the
background command thread with its error routing and decode fallback, the
index-lock wait loop, and the output panel.

Modelling conventions:
  * Directories that the root locator walks are lists of path components;
    `[]` is the filesystem root `/` (whose resolved parent is itself).
  * Filesystem state is a snapshot predicate `Path → Bool` (the result of
    `os.path.exists` at the relevant moment).
  * Raw process output is a list of byte values; decoded text is a list of
    Unicode code points.
  * Python truthiness of optional setting strings (`None` and `""` are
    falsy) is made explicit by `truthy`.
  * Wall-clock time for the cache is an abstract `Nat`.
-/

namespace Repo

abbrev Path := List String

/-- The `while directory:` loop of `repo_root` (src/repo.py lines 42-51):
check for a `.repo` marker subdirectory of `directory`; on failure move to
the resolved parent, stopping with a negative answer when the parent equals
the directory (filesystem root).  `dropLast` models taking the resolved
parent; at `[]` (the root `/`) the parent equals the directory itself.
`fuel` bounds the iteration count so the recursion is structural; each
iteration drops one path component, so `dir.length + 1` always suffices. -/
def repo_root_walk_go (fs : Path → Bool) : Nat → Path → Option Path
  | 0, _ => none
  | fuel + 1, dir =>
    if fs (dir ++ [".repo"]) then some dir
    else if dir = [] then none
    else repo_root_walk_go fs fuel dir.dropLast

/-- The marker walk of `repo_root`, run with adequate fuel. -/
def repo_root_walk (fs : Path → Bool) (dir : Path) : Option Path :=
  repo_root_walk_go fs (dir.length + 1) dir

/-- The chain of directories the walk can visit (fuel-bounded like the
walk): the directory itself and all its ancestors up to the filesystem
root. -/
def ancestors_go : Nat → Path → List Path
  | 0, _ => []
  | fuel + 1, dir => dir :: (if dir = [] then [] else ancestors_go fuel dir.dropLast)

/-- The directory itself and all its ancestors up to the filesystem
root. -/
def ancestors (dir : Path) : List Path :=
  ancestors_go (dir.length + 1) dir

/-- A `repo_root_cache` entry (src/repo.py lines 53-56): the memoised
result (`False` or the found root) and its expiry instant. -/
structure CacheEntry where
  retval : Option Path
  expires : Nat
deriving DecidableEq

abbrev RootCache := Path → Option CacheEntry

/-- `repo_root` (src/repo.py lines 33-58): consult the cache keyed by the
exact input directory; a non-expired hit short-circuits the walk, otherwise
walk and store the result with a five-second expiry.  The Python
comparison is `expires > time.time()`, i.e. strictly in the future. -/
def repo_root (fs : Path → Bool) (cache : RootCache) (now : Nat) (dir : Path) :
    Option Path × RootCache :=
  match cache dir with
  | some e =>
    if now < e.expires then (e.retval, cache)
    else
      let r := repo_root_walk fs dir
      (r, fun d => if d = dir then some ⟨r, now + 5⟩ else cache d)
  | none =>
    let r := repo_root_walk fs dir
    (r, fun d => if d = dir then some ⟨r, now + 5⟩ else cache d)

/-! ### Output decoding (`_make_text_safeish`, src/repo.py lines 81-90) -/

/-- Continuation-byte test for strict UTF-8 decoding. -/
def isCont (b : Nat) : Bool := 0x80 ≤ b && b ≤ 0xBF

/-- Strict UTF-8 decoding of a byte list into Unicode code points, as
Python's `bytes.decode('utf-8')` performs it; `none` models a raised
`UnicodeDecodeError` (overlong forms, surrogates and out-of-range leads are
rejected). -/
def pyDecodeUtf8 : List Nat → Option (List Nat)
  | [] => some []
  | b :: bs =>
    if b ≤ 0x7F then (pyDecodeUtf8 bs).map (b :: ·)
    else if 0xC2 ≤ b && b ≤ 0xDF then
      match bs with
      | b2 :: bs2 =>
        if isCont b2 then (pyDecodeUtf8 bs2).map ((b % 0x20 * 0x40 + b2 % 0x40) :: ·)
        else none
      | [] => none
    else if 0xE0 ≤ b && b ≤ 0xEF then
      match bs with
      | b2 :: b3 :: bs3 =>
        if ((if b = 0xE0 then 0xA0 else 0x80) ≤ b2 &&
            b2 ≤ (if b = 0xED then 0x9F else 0xBF) && isCont b3) then
          (pyDecodeUtf8 bs3).map ((b % 0x10 * 0x1000 + b2 % 0x40 * 0x40 + b3 % 0x40) :: ·)
        else none
      | _ => none
    else if 0xF0 ≤ b && b ≤ 0xF4 then
      match bs with
      | b2 :: b3 :: b4 :: bs4 =>
        if ((if b = 0xF0 then 0x90 else 0x80) ≤ b2 &&
            b2 ≤ (if b = 0xF4 then 0x8F else 0xBF) && isCont b3 && isCont b4) then
          (pyDecodeUtf8 bs4).map
            ((b % 8 * 0x40000 + b2 % 0x40 * 0x1000 + b3 % 0x40 * 0x40 + b4 % 0x40) :: ·)
        else none
      | _ => none
    else none

/-- Latin-1 decoding (an example caller-supplied fallback encoding): every
byte value is a valid code point. -/
def pyDecodeLatin1 (bs : List Nat) : Option (List Nat) :=
  if bs.all (· < 256) then some bs else none

/-- `_make_text_safeish` (src/repo.py lines 81-90), as invoked by the
command thread with `method='decode'`: try the UTF-8 decode; only when it
raises a Unicode error decode with the caller-supplied fallback encoding
(passed here as the abstract decoder `fallback`).  A `none` result models
the fallback decode itself raising, which escapes uncaught. -/
def make_text_safeish (fallback : List Nat → Option (List Nat)) (text : List Nat) :
    Option (List Nat) :=
  match pyDecodeUtf8 text with
  | some u => some u
  | none => fallback text

/-! ### The background command thread (`CommandThread.run`, src/repo.py
lines 156-204) -/

/-- What `subprocess.Popen` + `communicate` did: produced output bytes,
raised `CalledProcessError`, or raised `OSError` with an errno and a
strerror text. -/
inductive SpawnOutcome
  | success (bytes : List Nat)
  | calledProcessError (returncode : Int)
  | osError (errno : Int) (strerror : String)
deriving DecidableEq

/-- Which callable the `finally` block hands to `main_thread`: the caller's
`on_done` callback, or `sublime.error_message` (the blocking dialog). -/
inductive Callback
  | onDone
  | errorMessage
deriving DecidableEq

/-- The Python value bound to `output` when the callback is posted. -/
inductive PyValue
  | str (s : String)
  | decoded (codePoints : List Nat)
  | bytes (b : List Nat)
  | int (n : Int)
deriving DecidableEq

/-- `os.path.isdir` over a snapshot listing of existing directories; the
empty string is never a directory. -/
def os_isdir (dirs : List String) (p : String) : Bool :=
  decide (p ≠ "") && dirs.contains p

/-- The errno-2 dialog text (src/repo.py lines 197-199); `path` is
`os.environ['PATH']`. -/
def notFoundMessage (path : String) : String :=
  "Repo binary could not be found in PATH\n\nConsider using the repo_command setting for the Repo plugin\n\nPATH is: " ++ path

/-- Environment a `CommandThread.run` execution observes: the directories
existing when the thread runs, the spawn outcome, the fallback decoder from
`fallback_encoding`, and the `PATH` environment variable. -/
structure ThreadEnv where
  dirs : List String
  outcome : SpawnOutcome
  fallback : List Nat → Option (List Nat)
  pathEnv : String

/-- Observable effects of one `CommandThread.run` execution. -/
structure RunResult where
  commands_working : Int
  incremented : Bool
  decremented : Bool
  spawned : Bool
  callback : Option (Callback × PyValue)
  raised : Bool
deriving DecidableEq

/-- `CommandThread.run` (src/repo.py lines 156-204).  Vanished working
directory: silent early return.  Otherwise increment the global counter,
spawn, decode, and in `finally` decrement and post the callback; an
`OSError` from `Popen` switches the callback to the error dialog before
choosing the message by errno. -/
def commandThreadRun (env : ThreadEnv) (working_dir : String) (cw : Int) : RunResult :=
  if os_isdir env.dirs working_dir = false then
    { commands_working := cw, incremented := false, decremented := false,
      spawned := false, callback := none, raised := false }
  else
    match env.outcome with
    | .success b =>
      if b = [] then
        -- `if not output: output = ''` replaces empty bytes with a str;
        -- `getattr(output, 'decode')` then raises AttributeError, which
        -- escapes the try, but `finally` still decrements the counter and
        -- posts the callback with the prior value ''
        { commands_working := cw + 1 - 1, incremented := true, decremented := true,
          spawned := true, callback := some (.onDone, .str ""), raised := true }
      else
        match make_text_safeish env.fallback b with
        | some u =>
          { commands_working := cw + 1 - 1, incremented := true, decremented := true,
            spawned := true, callback := some (.onDone, .decoded u), raised := false }
        | none =>
          -- both decodes raised: the UnicodeDecodeError escapes, but
          -- `finally` still decrements and posts the raw bytes
          { commands_working := cw + 1 - 1, incremented := true, decremented := true,
            spawned := true, callback := some (.onDone, .bytes b), raised := true }
    | .calledProcessError rc =>
      { commands_working := cw + 1 - 1, incremented := true, decremented := true,
        spawned := true, callback := some (.onDone, .int rc), raised := false }
    | .osError errno strerror =>
      { commands_working := cw + 1 - 1, incremented := true, decremented := true,
        spawned := false,
        callback := some (.errorMessage,
          .str (if errno = 2 then notFoundMessage env.pathEnv else strerror)),
        raised := false }

/-! ### Python truthiness of setting strings -/

/-- Python truthiness of an optional string: `None` and `''` are falsy. -/
def truthy : Option String → Bool
  | none => false
  | some s => decide (s ≠ "")

/-- Python's `a or b` on optional strings: `a` when truthy, else `b`. -/
def pyOrStr (a b : Option String) : Option String := if truthy a then a else b

/-! ### Executable resolution (`find_repo`, src/repo.py lines 93-127) -/

/-- `_test_paths_for_executable` (src/repo.py lines 93-97): the first
joined path that exists and is executable (`isExec` is the
`os.path.exists`-and-`os.access(..., X_OK)` snapshot). -/
def test_paths_for_executable (isExec : String → Bool) (paths : List String)
    (test_file : String) : Option String :=
  match paths with
  | [] => none
  | d :: rest =>
    let file_path := d ++ "/" ++ test_file
    if isExec file_path then some file_path
    else test_paths_for_executable isExec rest test_file

/-- `find_repo` (src/repo.py lines 100-127), non-Windows branch: search the
`PATH` entries for `repo`, then, on failure, the two conventional install
directories. -/
def find_repo (pathDirs : List String) (isExec : String → Bool) : Option String :=
  match test_paths_for_executable isExec pathDirs "repo" with
  | some p => some p
  | none => test_paths_for_executable isExec ["/usr/local/bin", "/usr/local/repo/bin"] "repo"

/-! ### `RepoCommand.run_command` (src/repo.py lines 220-260) -/

/-- Settings and filesystem snapshot consumed by one `run_command` call. -/
structure RunCmdEnv where
  fs : Path → Bool                 -- `os.path.exists` snapshot
  s_repo_command : Option String   -- Repo.sublime-settings `repo_command`
  us_repo_binary : Option String   -- Preferences `repo_binary`
  s_repok_command : Option String
  s_repo_flow_command : Option String
  REPO : Option String             -- module-level `find_repo()` result

/-- The three sequential `command[0]` substitutions
(src/repo.py lines 242-251). -/
def substituteExecutable (env : RunCmdEnv) (command : List String) : List String :=
  match command with
  | [] => []
  | c0 :: rest =>
    let c0 :=
      if c0 = "repo" then
        if truthy (pyOrStr env.s_repo_command env.us_repo_binary) then
          (pyOrStr env.s_repo_command env.us_repo_binary).getD c0
        else if truthy env.REPO then env.REPO.getD c0
        else c0
      else c0
    let c0 :=
      if c0 = "repok" && truthy env.s_repok_command then env.s_repok_command.getD c0 else c0
    let c0 :=
      if c0 = "repo-flow" && truthy env.s_repo_flow_command then
        env.s_repo_flow_command.getD c0
      else c0
    c0 :: rest

/-- What one `run_command` invocation did: the argv the started
`CommandThread` received (`none` when no thread was started), whether a
`do_when` rerun of the whole call was scheduled because the index lock was
present, the status-bar message, and whether the call raised
(`command[0]` on an empty vector). -/
structure RunCommandStep where
  spawnedArgv : Option (List String)
  deferred : Bool
  statusShown : Option String
  raised : Bool
deriving DecidableEq

/-- One `run_command` invocation (src/repo.py lines 220-260): filter empty
args, locate the root, check the index lock (scheduling a rerun when
present — note the missing `return`: the body continues and starts the
thread immediately regardless), substitute the executable and start the
`CommandThread`.  The cache is elided here: the walk's result is what a
fresh lookup returns. -/
def run_command_once (env : RunCmdEnv) (wd : Path) (command : List String)
    (wait_for_lock filter_empty_args show_status : Bool)
    (status_message : Option String) : RunCommandStep :=
  let command := if filter_empty_args then command.filter (fun a => decide (a ≠ "")) else command
  let root := repo_root_walk env.fs wd
  let deferred := wait_for_lock &&
    (match root with
     | some r => env.fs (r ++ [".repo", "index.lock"])
     | none => false)
  match command with
  | [] => { spawnedArgv := none, deferred := deferred, statusShown := none, raised := true }
  | _ :: _ =>
    let command := substituteExecutable env command
    { spawnedArgv := some command, deferred := deferred,
      statusShown :=
        if show_status then
          some (if truthy status_message then status_message.getD ""
                else String.intercalate " " command)
        else none,
      raised := false }

/-! ### Temporal model of the lock-wait loop (`do_when`, src/repo.py
lines 75-78, driving `run_command`)

Ticks count `sublime.set_timeout` rounds.  A pending `do_when` poll fires
at the next tick; when its condition (lock gone) holds it invokes the
rescheduled `run_command` at that tick, otherwise it re-arms itself. -/

/-- A pending scheduled task: a (re)invocation of `run_command`, or the
`do_when` poll waiting for the index lock to disappear. -/
inductive LockTask
  | runCmd
  | lockWait
deriving DecidableEq

/-- Filesystem snapshot for the lock scenario: root `/r` with marker
`/r/.repo` always present, and `/r/.repo/index.lock` present iff
`lockNow`. -/
def lockScenarioFs (lockNow : Bool) : Path → Bool :=
  fun p => decide (p = ["r", ".repo"]) ||
    (decide (p = ["r", ".repo", "index.lock"]) && lockNow)

/-- `run_command` environment for the lock scenario: no setting overrides,
resolved executable `/usr/local/bin/repo`. -/
def lockScenarioEnv (lockNow : Bool) : RunCmdEnv :=
  { fs := lockScenarioFs lockNow, s_repo_command := none, us_repo_binary := none,
    s_repok_command := none, s_repo_flow_command := none,
    REPO := some "/usr/local/bin/repo" }

/-- Execute `run_command ['repo','sync']` at tick `t`: the ticks at which a
`CommandThread` is started, and the tasks it leaves pending for tick
`t+1`. -/
def stepRunCmd (lock : Nat → Bool) (t : Nat) : List Nat × List LockTask :=
  let r := run_command_once (lockScenarioEnv (lock t)) ["r"] ["repo", "sync"]
    true true true none
  ((if r.spawnedArgv.isSome then [t] else []),
   if r.deferred then [.lockWait] else [])

/-- Execute one pending task at tick `t` (the `do_when` poll runs
`run_command` as soon as the lock is gone). -/
def stepTask (lock : Nat → Bool) (t : Nat) : LockTask → List Nat × List LockTask
  | .runCmd => stepRunCmd lock t
  | .lockWait => if lock t then ([], [.lockWait]) else stepRunCmd lock t

/-- Run the scheduler for `fuel` ticks starting at tick `t`: all spawn
ticks, and the tasks still pending. -/
def runTicks (lock : Nat → Bool) : Nat → Nat → List LockTask → List Nat × List LockTask
  | _, 0, tasks => ([], tasks)
  | t, fuel + 1, tasks =>
    let stepped := tasks.map (stepTask lock t)
    let (later, rest) := runTicks lock (t + 1) fuel (stepped.flatMap Prod.snd)
    (stepped.flatMap Prod.fst ++ later, rest)

/-! ### Output routing (panel and generic completion) -/

/-- Observable state of the reusable output panel. -/
structure PanelState where
  content : String
  readOnly : Bool
  visible : Bool
deriving DecidableEq

/-- `RepoScratchOutputCommand.run` (src/repo.py lines 207-213) acting on a
view holding `content`: optionally erase everything, then insert `output`
at position 0. -/
def repo_scratch_output (clear : Bool) (output : String) (content : String) : String :=
  let content := if clear then "" else content
  output ++ content

/-- `RepoCommand.panel` (src/repo.py lines 303-309): unlock the reused
panel, replace its content (`clear=True`), relock it, and show it. -/
def panelWrite (output : String) (p : PanelState) : PanelState :=
  let p1 : PanelState := { p with readOnly := false }
  let p2 : PanelState := { p1 with content := repo_scratch_output true output p1.content }
  let p3 : PanelState := { p2 with readOnly := true }
  { p3 with visible := true }

/-- Python's `str.strip()` with no argument: remove leading and trailing
whitespace. -/
def pyStrip (s : String) : String :=
  String.mk (((s.toList.dropWhile Char.isWhitespace).reverse.dropWhile
    Char.isWhitespace).reverse)

/-- `RepoCommand.generic_done` (src/repo.py lines 262-281), panel-relevant
behaviour: a dirty file view replaces the result with a warning (the revert
and viewport side effects of the clean-file case are not panel state);
a result that strips to empty is dropped, anything else is panelled. -/
def generic_done (may_change_files has_file dirty : Bool) (result : String)
    (p : PanelState) : PanelState :=
  let result :=
    if may_change_files && has_file && dirty then "WARNING: Current view is dirty.\n\n"
    else result
  if pyStrip result = "" then p else panelWrite result p

/-! ### `RepoWindowCommand` working-directory resolution (src/repo.py
lines 321-357) -/

/-- `_active_file_name` (src/repo.py lines 321-324): the active view's
file name when the view exists and its name is a non-empty string.  The
outer option is the view, the inner one its `file_name()`. -/
def active_file_name (view : Option (Option String)) : Option String :=
  match view with
  | some (some f) => if f.length > 0 then some f else none
  | _ => none

/-- `RepoWindowCommand.get_working_dir` (src/repo.py lines 349-357): the
active file's resolved directory, else the first open folder, else `''`
(the `IndexError` handler). -/
def get_working_dir (view : Option (Option String)) (folders : List String)
    (realDirname : String → String) : String :=
  match active_file_name view with
  | some f => realDirname f
  | none => folders.headD ""

/-- `RepoSyncCommand.run` (src/repo.py lines 470-474) builds this argument
vector. -/
def repoSyncCommandArgv : List String := ["repo", "sync"]

/-! ## Theorems -/

/-- The walk returns the first directory in the ancestor chain that has the
`.repo` marker. -/
theorem repo_root_walk_go_eq_find (fs : Path → Bool) (fuel : Nat) (dir : Path)
    (h : dir.length < fuel) :
    repo_root_walk_go fs fuel dir
      = (ancestors_go fuel dir).find? (fun a => fs (a ++ [".repo"])) := by
  induction fuel generalizing dir with
  | zero => omega
  | succ fuel ih =>
    simp only [repo_root_walk_go, ancestors_go]
    cases h1 : fs (dir ++ [".repo"]) with
    | true => simp [List.find?_cons, h1]
    | false =>
      by_cases h2 : dir = []
      · subst h2
        simp only [List.nil_append] at h1
        simp [List.find?_cons, h1]
      · have hlen : dir.dropLast.length < fuel := by
          have hd := List.length_dropLast dir
          have : dir.length ≠ 0 := fun hl => h2 (List.length_eq_zero.mp hl)
          omega
        simp [List.find?_cons, h1, h2, ih _ hlen]

/-- With its canonical fuel, the walk equals the first-marked-ancestor
search. -/
theorem repo_root_walk_eq_find (fs : Path → Bool) (dir : Path) :
    repo_root_walk fs dir = (ancestors dir).find? (fun a => fs (a ++ [".repo"])) :=
  repo_root_walk_go_eq_find fs (dir.length + 1) dir (by omega)

/-- Claim C3: `repo_root` walks upward checking each directory for a
`.repo` marker subdirectory: if no ancestor up to the filesystem root
(where the resolved parent equals the directory itself) contains the
marker, it returns absent; if a directory on the walk contains the marker,
it returns that directory. -/
theorem repo_root_walk_correct (fs : Path → Bool) (dir : Path) :
    ((∀ a ∈ ancestors dir, fs (a ++ [".repo"]) = false) → repo_root_walk fs dir = none)
    ∧ (∀ r, repo_root_walk fs dir = some r →
        r ∈ ancestors dir ∧ fs (r ++ [".repo"]) = true) := by
  constructor
  · intro h
    rw [repo_root_walk_eq_find]
    apply List.find?_eq_none.mpr
    intro a ha
    simp [h a ha]
  · intro r hr
    rw [repo_root_walk_eq_find] at hr
    have hm := List.mem_of_find?_eq_some hr
    have hp := List.find?_some hr
    exact ⟨hm, by simpa using hp⟩

/-- Witness for claim C3 at a concrete filesystem: the marker sits at
`/a/b/.repo`, and the walk from `/a/b/c` returns `/a/b`, an ancestor
holding the marker. -/
theorem repo_root_walk_correct_witness :
    repo_root_walk (fun p => decide (p = ["a", "b", ".repo"])) ["a", "b", "c"]
      = some ["a", "b"]
    ∧ ["a", "b"] ∈ ancestors ["a", "b", "c"]
    ∧ (fun p : Path => decide (p = ["a", "b", ".repo"])) (["a", "b"] ++ [".repo"]) = true := by
  have h := (repo_root_walk_correct (fun p => decide (p = ["a", "b", ".repo"]))
      ["a", "b", "c"]).2 ["a", "b"] (by decide)
  exact ⟨by decide, h.1, h.2⟩

/-- Claim C4: `repo_root` caches its result (positive or negative) keyed by
the exact input directory with an expiry 5 seconds in the future; a lookup
whose cache entry has not expired returns the cached value without
performing any filesystem walk (the result and the cache are those of the
hit, independent of the filesystem `fs` versus `fs'`), and a cached value
is never returned at or past its expiry time: an expired entry forces a
fresh walk. -/
theorem repo_root_cache_spec (fs fs' : Path → Bool) (cache : RootCache) (now : Nat)
    (dir : Path) :
    (∀ e, cache dir = some e → now < e.expires →
        repo_root fs cache now dir = (e.retval, cache)
        ∧ repo_root fs cache now dir = repo_root fs' cache now dir)
    ∧ (∀ e, cache dir = some e → e.expires ≤ now →
        (repo_root fs cache now dir).1 = repo_root_walk fs dir
        ∧ (repo_root fs cache now dir).2 dir = some ⟨repo_root_walk fs dir, now + 5⟩)
    ∧ (cache dir = none →
        (repo_root fs cache now dir).1 = repo_root_walk fs dir
        ∧ (repo_root fs cache now dir).2 dir = some ⟨repo_root_walk fs dir, now + 5⟩) := by
  refine ⟨?_, ?_, ?_⟩
  · intro e he hlt
    simp [repo_root, he, hlt]
  · intro e he hge
    have hnlt : ¬ now < e.expires := by omega
    simp [repo_root, he, hnlt]
  · intro hn
    simp [repo_root, hn]

/-- Witness for claim C4: a cache holding `["x"] ↦ (some ["x"], expires 10)`
queried at time 7 returns the cached root untouched, on a filesystem with
no markers at all. -/
theorem repo_root_cache_spec_witness :
    repo_root (fun _ => false)
        (fun d => if d = ["x"] then some ⟨some ["x"], 10⟩ else none) 7 ["x"]
      = (some ["x"], fun d => if d = ["x"] then some ⟨some ["x"], 10⟩ else none) :=
  ((repo_root_cache_spec (fun _ => false) (fun _ => true)
      (fun d => if d = ["x"] then some ⟨some ["x"], 10⟩ else none) 7 ["x"]).1
    ⟨some ["x"], 10⟩ (by decide) (by decide)).1

/-- Claim C5: for every command invocation whose working directory does not
exist on disk at the moment the worker thread runs, the runner returns
without spawning a process, without invoking any callback, and without
raising; the counter is untouched. -/
theorem vanished_dir_silent (env : ThreadEnv) (wd : String) (cw : Int)
    (h : os_isdir env.dirs wd = false) :
    commandThreadRun env wd cw =
      { commands_working := cw, incremented := false, decremented := false,
        spawned := false, callback := none, raised := false } := by
  simp [commandThreadRun, h]

/-- Witness for claim C5: working directory `/gone` while only `/a`
exists. -/
theorem vanished_dir_silent_witness :
    commandThreadRun ⟨["/a"], .success [111], pyDecodeLatin1, ""⟩ "/gone" 3 =
      { commands_working := 3, incremented := false, decremented := false,
        spawned := false, callback := none, raised := false } :=
  vanished_dir_silent ⟨["/a"], .success [111], pyDecodeLatin1, ""⟩ "/gone" 3 (by decide)

/-- Claim C6: for every captured output byte sequence, the runner first
attempts UTF-8 decoding; if and only if that raises a Unicode decode error
does it decode with the caller-supplied fallback encoding, so bytes invalid
as UTF-8 but valid in the fallback encoding yield the fallback-decoded text
rather than an error, and that text reaches the normal callback. -/
theorem make_text_safeish_first_utf8 (fallback : List Nat → Option (List Nat))
    (b : List Nat) :
    (∀ u, pyDecodeUtf8 b = some u → make_text_safeish fallback b = some u)
    ∧ (pyDecodeUtf8 b = none → make_text_safeish fallback b = fallback b)
    ∧ (∀ (dirs : List String) (path wd : String) (cw : Int) (u : List Nat),
        os_isdir dirs wd = true → b ≠ [] →
        make_text_safeish fallback b = some u →
        (commandThreadRun ⟨dirs, .success b, fallback, path⟩ wd cw).callback
          = some (Callback.onDone, PyValue.decoded u)) := by
  refine ⟨?_, ?_, ?_⟩
  · intro u hu
    simp [make_text_safeish, hu]
  · intro h
    simp [make_text_safeish, h]
  · intro dirs path wd cw u hdir hb hm
    simp [commandThreadRun, hdir, hb, hm]

/-- Witness for claim C6: the byte `0xFF` is invalid UTF-8 but valid
Latin-1, and the two-stage decode yields its Latin-1 decoding. -/
theorem make_text_safeish_first_utf8_witness :
    pyDecodeUtf8 [255] = none ∧ pyDecodeLatin1 [255] = some [255]
    ∧ make_text_safeish pyDecodeLatin1 [255] = some [255] := by
  refine ⟨by decide, by decide, ?_⟩
  have h := (make_text_safeish_first_utf8 pyDecodeLatin1 [255]).2.1 (by decide)
  rw [h]
  decide

/-- Claim C7: over every execution of the worker body the in-flight
counter's net change is zero; whenever the body passes the directory check
it both increments on entry and decrements in the cleanup step, whatever
the outcome (normal completion, decode failure, or launch error). -/
theorem counter_net_zero (env : ThreadEnv) (wd : String) (cw : Int) :
    (commandThreadRun env wd cw).commands_working = cw
    ∧ (commandThreadRun env wd cw).incremented = (commandThreadRun env wd cw).decremented
    ∧ (os_isdir env.dirs wd = true →
        (commandThreadRun env wd cw).incremented = true
        ∧ (commandThreadRun env wd cw).decremented = true) := by
  obtain ⟨dirs, outcome, fb, path⟩ := env
  by_cases h : os_isdir dirs wd = false
  · simp [commandThreadRun, h]
  · cases outcome with
    | success b =>
      by_cases hb : b = []
      · simp [commandThreadRun, h, hb]
      · cases hm : make_text_safeish fb b with
        | some u => simp [commandThreadRun, h, hb, hm]
        | none => simp [commandThreadRun, h, hb, hm]
    | calledProcessError rc => simp [commandThreadRun, h]
    | osError errno strerror => simp [commandThreadRun, h]

/-- Witness for claim C7 on a run that passes the directory check. -/
theorem counter_net_zero_witness :
    (commandThreadRun ⟨["/w"], .success [111], pyDecodeLatin1, ""⟩ "/w" 5).commands_working
      = 5
    ∧ (commandThreadRun ⟨["/w"], .success [111], pyDecodeLatin1, ""⟩ "/w" 5).incremented
      = true
    ∧ (commandThreadRun ⟨["/w"], .success [111], pyDecodeLatin1, ""⟩ "/w" 5).decremented
      = true := by
  have h := counter_net_zero ⟨["/w"], .success [111], pyDecodeLatin1, ""⟩ "/w" 5
  exact ⟨h.1, (h.2.2 (by decide)).1, (h.2.2 (by decide)).2⟩

/-- Claim C9: on every write to the reusable output panel the previous
content is cleared and the new output written, so the final content equals
exactly the new output regardless of what the panel held before, and the
panel is made visible as a side effect of the write. -/
theorem panel_full_replace (output : String) (p : PanelState) :
    panelWrite output p = { content := output, readOnly := true, visible := true } := by
  simp [panelWrite, repo_scratch_output]

/-- Claim C10: when no file is open in the active view and the window has
no open folder, the working directory resolves to the empty string, which
fails the directory-exists check, so the dispatched command is silently
dropped with no process spawned and no callback. -/
theorem empty_working_dir_dropped (realDirname : String → String)
    (dirs : List String) (outcome : SpawnOutcome) (fb : List Nat → Option (List Nat))
    (path : String) (cw : Int) :
    get_working_dir none [] realDirname = ""
    ∧ get_working_dir (some none) [] realDirname = ""
    ∧ os_isdir dirs "" = false
    ∧ commandThreadRun ⟨dirs, outcome, fb, path⟩ "" cw =
        { commands_working := cw, incremented := false, decremented := false,
          spawned := false, callback := none, raised := false } := by
  refine ⟨rfl, rfl, ?_, ?_⟩
  · simp [os_isdir]
  · simp [commandThreadRun, os_isdir]

/-- Claim C2, counterexample: an `OSError` with errno 13 delivers its
strerror through `sublime.error_message` (the blocking dialog), not through
the normal result callback as the claim states. -/
theorem oserror_strerror_via_dialog_counterexample :
    (commandThreadRun ⟨["/w"], .osError 13 "Permission denied", pyDecodeLatin1,
        "/usr/bin"⟩ "/w" 0).callback
      = some (Callback.errorMessage, PyValue.str "Permission denied")
    ∧ (commandThreadRun ⟨["/w"], .osError 13 "Permission denied", pyDecodeLatin1,
        "/usr/bin"⟩ "/w" 0).callback
      ≠ some (Callback.onDone, PyValue.str "Permission denied") := by
  decide

/-- Claim C2 as amended: every OS-level launch error is delivered through
the blocking error-dialog callback and no process is spawned; errno 2 gets
the message naming the `repo_command` override setting, every other errno
gets the error's strerror text. -/
theorem oserror_dialog_routing (dirs : List String) (fb : List Nat → Option (List Nat))
    (path wd : String) (cw : Int) (errno : Int) (strerror : String)
    (h : os_isdir dirs wd = true) :
    (commandThreadRun ⟨dirs, .osError errno strerror, fb, path⟩ wd cw).callback
      = some (Callback.errorMessage,
          PyValue.str (if errno = 2 then notFoundMessage path else strerror))
    ∧ (commandThreadRun ⟨dirs, .osError errno strerror, fb, path⟩ wd cw).spawned = false
    ∧ notFoundMessage path
        = "Repo binary could not be found in PATH\n\nConsider using the repo_command setting for the Repo plugin\n\nPATH is: " ++ path := by
  refine ⟨?_, ?_, rfl⟩ <;> simp [commandThreadRun, h]

/-- Witness for the amended claim C2 at errno 2. -/
theorem oserror_dialog_routing_witness :
    (commandThreadRun ⟨["/w"], .osError 2 "No such file or directory",
        pyDecodeLatin1, "/usr/bin"⟩ "/w" 0).callback
      = some (Callback.errorMessage, PyValue.str (notFoundMessage "/usr/bin")) := by
  have h := (oserror_dialog_routing ["/w"] pyDecodeLatin1 "/usr/bin" "/w" 0 2
      "No such file or directory" (by decide)).1
  simpa using h

/-- Claim C1: the index-lock wait is broken in the code.  With the lock
present at ticks 0 and 1 and removed at tick 2, a `repo sync` issued at
tick 0 starts a `CommandThread` at tick 0 — while the lock exists — and
again at tick 2 after the lock clears, because `run_command` schedules the
`do_when` rerun but does not return, falling through to the immediate
spawn.  The claim (no spawn until the marker is removed, then exactly one
run) is the documented intent; the code spawns twice. -/
theorem lock_wait_fallthrough_eval :
    (runTicks (fun t => decide (t < 2)) 0 4 [LockTask.runCmd]).fst = [0, 2]
    ∧ (fun t : Nat => decide (t < 2)) 0 = true
    ∧ (fun t : Nat => decide (t < 2)) 2 = false
    ∧ (run_command_once (lockScenarioEnv true) ["r"] ["repo", "sync"] true true true
        none).deferred = true
    ∧ (run_command_once (lockScenarioEnv true) ["r"] ["repo", "sync"] true true true
        none).spawnedArgv.isSome = true := by
  decide

/-- Claim C8: the end-to-end `sync` scenario.  The executable resolves to
`/usr/local/bin/repo`; `RepoSyncCommand` builds `["repo", "sync"]`;
`run_command` substitutes the first element before starting the thread and
does not defer (no lock present); the thread decodes the output bytes of
`"ok"` and posts them to the normal callback; `generic_done` routes the
text to the panel, whose content is replaced and which becomes visible. -/
theorem sync_scenario_end_to_end :
    repoSyncCommandArgv = ["repo", "sync"]
    ∧ find_repo ["/usr/bin"] (fun p => decide (p = "/usr/local/bin/repo"))
        = some "/usr/local/bin/repo"
    ∧ (run_command_once (lockScenarioEnv false) ["r"] repoSyncCommandArgv true true true
        none).spawnedArgv = some ["/usr/local/bin/repo", "sync"]
    ∧ (run_command_once (lockScenarioEnv false) ["r"] repoSyncCommandArgv true true true
        none).deferred = false
    ∧ (commandThreadRun ⟨["/r"], .success [111, 107], pyDecodeLatin1, "/usr/bin"⟩
        "/r" 0).callback = some (Callback.onDone, PyValue.decoded [111, 107])
    ∧ "ok".toList.map Char.toNat = [111, 107]
    ∧ generic_done false true false "ok" ⟨"old contents", true, false⟩
        = { content := "ok", readOnly := true, visible := true } := by
  decide

end Repo
